import Mathlib

/-!
Verification of the data-model layer in `revolt/server.py`: the `Server`
and `SystemMessages` wrappers, their construction from wire payloads, the
partial-update protocol `_update`, the id-based lookups, and the permission
setter.  Collaborator classes (`Channel`, `State`, `Asset`, `Role`,
`Category`, `Member`, `ServerPermissions`) are not part of the verified
module; they are modelled from the specification, keeping exactly the
surface this module consumes.
-/

set_option autoImplicit false

namespace Revolt

/-- Modelled from the spec: channel kinds are a tagged variant; the only
distinction this module observes is whether a channel is a text channel
(the `isinstance(channel, TextChannel)` assertion in `SystemMessages`). -/
inductive ChannelKind where
  | text
  | other
  deriving DecidableEq, Repr

/-- Modelled from the spec: a cached `Channel` entity, exposing its `id`
and its variant.  All other channel attributes are unobserved here. -/
structure Channel where
  id : String
  kind : ChannelKind
  deriving DecidableEq, Repr

/-- First-match lookup in an association list keyed by strings, the
behaviour of a Python dict subscript made total by returning an option. -/
def lookupStr {α : Type} : List (String × α) → String → Option α
  | [], _ => none
  | (k, v) :: t, key => if k = key then some v else lookupStr t key

/-- Modelled from the spec: the shared `State` cache.  This module only
consumes `get_channel(id) -> Channel | None`; the cache is an id-keyed
store of channels. -/
structure State where
  channels : List (String × Channel)
  deriving DecidableEq, Repr

/-- Modelled from the spec: `state.get_channel` resolves a channel id in
the cache, returning the cached channel or an absent value. -/
def State.get_channel (st : State) (cid : String) : Option Channel :=
  lookupStr st.channels cid

/-- A raw `File` payload fragment (wire-format dict).  Only its identity
and its Python truthiness (empty dict is falsy) are observed. -/
structure FilePayload where
  entries : List (String × String)
  deriving DecidableEq, Repr

/-- Modelled from the spec: `Asset(payload, state)` wraps a raw file
payload; the state handle adds no observable data and is omitted. -/
structure Asset where
  data : FilePayload
  deriving DecidableEq, Repr

/-- A raw role payload fragment; its contents are unobserved here. -/
structure RolePayload where
  raw : String
  deriving DecidableEq, Repr

/-- Modelled from the spec: `Role(payload, role_id, state, server)` wraps
a raw role payload under its id; the state handle and the back-reference
to the owning server are omitted. -/
structure Role where
  data : RolePayload
  role_id : String
  deriving DecidableEq, Repr

/-- A raw category payload fragment; its contents are unobserved here. -/
structure CategoryPayload where
  raw : String
  deriving DecidableEq, Repr

/-- Modelled from the spec: `Category(payload, state)` wraps a raw
category payload; the state handle is omitted. -/
structure Category where
  data : CategoryPayload
  deriving DecidableEq, Repr

/-- Modelled from the spec: a `Member` entity; only its identity is
observed (the module never constructs members). -/
structure Member where
  id : String
  deriving DecidableEq, Repr

/-- Modelled from the spec: `ServerPermissions(*values)` wraps the tuple
of permission values; `permissions.value` recovers the tuple. -/
structure ServerPermissions where
  value : List Nat
  deriving DecidableEq, Repr

/-- The `SystemMessagesConfig` wire payload: four optional channel ids. -/
structure SystemMessagesConfig where
  user_joined : Option String := none
  user_left : Option String := none
  user_kicked : Option String := none
  user_banned : Option String := none
  deriving DecidableEq, Repr

/-- The `SystemMessages` wrapper: stores the four optional channel ids
read from the config (`SystemMessages.__init__`).  The state handle is
held by reference in the source; here the state is passed to each
accessor instead. -/
structure SystemMessages where
  user_joined_id : Option String
  user_left_id : Option String
  user_kicked_id : Option String
  user_banned_id : Option String
  deriving DecidableEq, Repr

/-- Source: `SystemMessages.__init__`: each id is `data.get(key)`. -/
def SystemMessages.init (data : SystemMessagesConfig) : SystemMessages :=
  { user_joined_id := data.user_joined
    user_left_id := data.user_left
    user_kicked_id := data.user_kicked
    user_banned_id := data.user_banned }

/-- Outcome of a `SystemMessages` channel accessor: the resolved text
channel, an absent value (falsy stored id), or a failure of the
`assert isinstance(channel, TextChannel)` assertion. -/
inductive AccessResult where
  | absent
  | channel (c : Channel)
  | assertFailure
  deriving DecidableEq, Repr

/-- Python truthiness of an optional string: `None` and `""` are falsy. -/
def truthyStr : Option String → Bool
  | none => false
  | some s => s ≠ ""

/-- The shared body of the four `SystemMessages` accessor properties:
if the stored id is falsy return an absent value; otherwise look the id
up in the cache and assert the result is a text channel.  The second
component counts cache lookups performed. -/
def resolveSystemChannel (idOpt : Option String) (st : State) : AccessResult × Nat :=
  if truthyStr idOpt then
    match st.get_channel (idOpt.getD "") with
    | some c => if c.kind = ChannelKind.text then (AccessResult.channel c, 1) else (AccessResult.assertFailure, 1)
    | none => (AccessResult.assertFailure, 1)
  else
    (AccessResult.absent, 0)

/-- Source: `SystemMessages.user_joined`: fresh cache lookup on each access. -/
def SystemMessages.user_joined (sm : SystemMessages) (st : State) : AccessResult × Nat :=
  resolveSystemChannel sm.user_joined_id st

/-- Source: `SystemMessages.user_left`: fresh cache lookup on each access. -/
def SystemMessages.user_left (sm : SystemMessages) (st : State) : AccessResult × Nat :=
  resolveSystemChannel sm.user_left_id st

/-- Source: `SystemMessages.user_kicked`: fresh cache lookup on each access. -/
def SystemMessages.user_kicked (sm : SystemMessages) (st : State) : AccessResult × Nat :=
  resolveSystemChannel sm.user_kicked_id st

/-- Source: `SystemMessages.user_banned`: fresh cache lookup on each access. -/
def SystemMessages.user_banned (sm : SystemMessages) (st : State) : AccessResult × Nat :=
  resolveSystemChannel sm.user_banned_id st

/-- The `Server` wire payload consumed by `Server.__init__`.  Required
keys are plain fields; optional keys are options. -/
structure ServerPayload where
  _id : String
  name : String
  owner : String
  default_permissions : List Nat
  channels : List String
  description : Option String := none
  nsfw : Option Bool := none
  system_messages : Option SystemMessagesConfig := none
  categories : Option (List CategoryPayload) := none
  icon : Option FilePayload := none
  banner : Option FilePayload := none
  roles : Option (List (String × RolePayload)) := none
  deriving DecidableEq, Repr

/-- The `Server` wrapper: its attributes after construction or update. -/
structure Server where
  id : String
  name : String
  owner_id : String
  default_permissions : ServerPermissions
  description : Option String
  nsfw : Bool
  system_messages : SystemMessages
  categories : List Category
  icon : Option Asset
  banner : Option Asset
  _members : List (String × Member)
  _roles : List (String × Role)
  _channels : List (String × Channel)
  deriving DecidableEq, Repr

/-- Insertion into a Python dict: an existing key is overwritten in
place, a new key is appended (insertion order is preserved). -/
def dictInsert {α : Type} (m : List (String × α)) (k : String) (v : α) : List (String × α) :=
  if m.any fun p => p.1 = k then
    m.map fun p => if p.1 = k then (k, v) else p
  else
    m ++ [(k, v)]

/-- Building a Python dict from a sequence of key-value pairs. -/
def pyDict {α : Type} (l : List (String × α)) : List (String × α) :=
  l.foldl (fun m kv => dictInsert m kv.1 kv.2) []

/-- Source: `Server.__init__`: construct a server from a full payload and the
shared cache.  `description` is normalised through `or None`; `icon` and
`banner` are gated by dict truthiness; `_members` starts empty; `_roles`
is built from the payload role mapping; `_channels` resolves the listed
channel ids against the cache, silently dropping unresolved ids, and is
keyed by each resolved channel's own id. -/
def Server.init (data : ServerPayload) (state : State) : Server :=
  let channels := (data.channels.map state.get_channel).filterMap fun c => c
  { id := data._id
    name := data.name
    owner_id := data.owner
    default_permissions := ServerPermissions.mk data.default_permissions
    description :=
      match data.description with
      | some s => if s = "" then none else some s
      | none => none
    nsfw := data.nsfw.getD false
    system_messages := SystemMessages.init (data.system_messages.getD {})
    categories := (data.categories.getD []).map Category.mk
    icon :=
      match data.icon with
      | some f => if f.entries = [] then none else some (Asset.mk f)
      | none => none
    banner :=
      match data.banner with
      | some f => if f.entries = [] then none else some (Asset.mk f)
      | none => none
    _members := []
    _roles := (data.roles.getD []).map fun p => (p.1, Role.mk p.2 p.1)
    _channels := pyDict (channels.map fun c => (c.id, c)) }

/-- The partial-update payload accepted by `Server._update`: every field
optional, absent fields defaulting to `None`. -/
structure ServerUpdatePayload where
  owner : Option String := none
  name : Option String := none
  description : Option String := none
  icon : Option FilePayload := none
  banner : Option FilePayload := none
  default_permissions : Option (List Nat) := none
  nsfw : Option Bool := none
  system_messages : Option SystemMessagesConfig := none
  categories : Option (List CategoryPayload) := none
  deriving DecidableEq, Repr

/-- Source: `if owner: self.owner_id = owner` (truthiness gate). -/
def applyOwner (o : Option String) (s : Server) : Server :=
  match o with
  | some v => if v = "" then s else { s with owner_id := v }
  | none => s

/-- Source: `if name: self.name = name` (truthiness gate). -/
def applyName (o : Option String) (s : Server) : Server :=
  match o with
  | some v => if v = "" then s else { s with name := v }
  | none => s

/-- Source: `if description is not None: self.description = description or None`
(presence gate; empty string normalised to an absent value). -/
def applyDescription (o : Option String) (s : Server) : Server :=
  match o with
  | some v => { s with description := if v = "" then none else some v }
  | none => s

/-- Source: `if icon: self.icon = Asset(icon, self.state)` (truthiness gate). -/
def applyIcon (o : Option FilePayload) (s : Server) : Server :=
  match o with
  | some f => if f.entries = [] then s else { s with icon := some (Asset.mk f) }
  | none => s

/-- Source: `if banner: self.banner = Asset(banner, self.state)` (truthiness
gate). -/
def applyBanner (o : Option FilePayload) (s : Server) : Server :=
  match o with
  | some f => if f.entries = [] then s else { s with banner := some (Asset.mk f) }
  | none => s

/-- Source: `if default_permissions: self.default_permissions =
ServerPermissions(*default_permissions)` (truthiness gate: an empty
tuple is falsy). -/
def applyDefaultPermissions (o : Option (List Nat)) (s : Server) : Server :=
  match o with
  | some p => if p = [] then s else { s with default_permissions := ServerPermissions.mk p }
  | none => s

/-- Source: `if nsfw is not None: self.nsfw = nsfw` (presence gate). -/
def applyNsfw (o : Option Bool) (s : Server) : Server :=
  match o with
  | some b => { s with nsfw := b }
  | none => s

/-- Source: `if system_messages is not None: self.system_messages =
SystemMessages(system_messages, self.state)` (presence gate). -/
def applySystemMessages (o : Option SystemMessagesConfig) (s : Server) : Server :=
  match o with
  | some cfg => { s with system_messages := SystemMessages.init cfg }
  | none => s

/-- Source: `if categories is not None: self.categories = [Category(data,
self.state) for data in categories]` (presence gate). -/
def applyCategories (o : Option (List CategoryPayload)) (s : Server) : Server :=
  match o with
  | some cs => { s with categories := cs.map Category.mk }
  | none => s

/-- Source: `Server._update`: the nine conditional assignments of the source, in
source order. -/
def Server._update (s : Server) (d : ServerUpdatePayload) : Server :=
  applyCategories d.categories
    (applySystemMessages d.system_messages
      (applyNsfw d.nsfw
        (applyDefaultPermissions d.default_permissions
          (applyBanner d.banner
            (applyIcon d.icon
              (applyDescription d.description
                (applyName d.name
                  (applyOwner d.owner s))))))))

/-- Source: `Server.roles` property: the values of `_roles` in order. -/
def Server.roles (s : Server) : List Role :=
  s._roles.map Prod.snd

/-- Source: `Server.members` property: the values of `_members` in order. -/
def Server.members (s : Server) : List Member :=
  s._members.map Prod.snd

/-- Source: `Server.channels` property: the values of `_channels` in order. -/
def Server.channels (s : Server) : List Channel :=
  s._channels.map Prod.snd

/-- A failed Python dict subscript raises `KeyError(key)`. -/
inductive LookupError where
  | keyNotFound (key : String)
  deriving DecidableEq, Repr

/-- Source: `Server.get_role`: `self._roles[role_id]`, raising on a missing
key. -/
def Server.get_role (s : Server) (role_id : String) : Except LookupError Role :=
  match lookupStr s._roles role_id with
  | some r => Except.ok r
  | none => Except.error (LookupError.keyNotFound role_id)

/-- Source: `Server.get_member`: `self._members[member_id]`, raising on a
missing key. -/
def Server.get_member (s : Server) (member_id : String) : Except LookupError Member :=
  match lookupStr s._members member_id with
  | some m => Except.ok m
  | none => Except.error (LookupError.keyNotFound member_id)

/-- Source: `Server.get_channel`: `self._channels[channel_id]`, raising on a
missing key. -/
def Server.get_channel (s : Server) (channel_id : String) : Except LookupError Channel :=
  match lookupStr s._channels channel_id with
  | some c => Except.ok c
  | none => Except.error (LookupError.keyNotFound channel_id)

/-- A call observed on the `http` transport collaborator. -/
inductive HttpCall where
  | setDefaultPermissions (server_id : String) (values : List Nat)
  deriving DecidableEq, Repr

/-- Source: `Server.set_default_permissions`: awaits
`state.http.set_default_permissions(self.id, *permissions.value)` and
assigns nothing locally.  The result is the (unchanged) server together
with the list of transport calls performed. -/
def Server.set_default_permissions (s : Server) (permissions : ServerPermissions) : Server × List HttpCall :=
  (s, [HttpCall.setDefaultPermissions s.id permissions.value])

/-- Value of the `owner_id` attribute after one update step: a truthy
(non-empty) update value replaces the old one. -/
def ownerAfter : Option String → String → String
  | some v, old => if v = "" then old else v
  | none, old => old

/-- Value of the `name` attribute after one update step: a truthy
(non-empty) update value replaces the old one. -/
def nameAfter : Option String → String → String
  | some v, old => if v = "" then old else v
  | none, old => old

/-- Value of the `description` attribute after one update step: a
present value replaces the old one, the empty string becoming `none`. -/
def descriptionAfter : Option String → Option String → Option String
  | some v, _ => if v = "" then none else some v
  | none, old => old

/-- Value of the `icon` or `banner` attribute after one update step: a
truthy (non-empty dict) file payload is wrapped into an `Asset`. -/
def assetAfter : Option FilePayload → Option Asset → Option Asset
  | some f, old => if f.entries = [] then old else some (Asset.mk f)
  | none, old => old

/-- Value of `default_permissions` after one update step: a truthy
(non-empty) tuple is wrapped into `ServerPermissions`. -/
def permsAfter : Option (List Nat) → ServerPermissions → ServerPermissions
  | some p, old => if p = [] then old else ServerPermissions.mk p
  | none, old => old

/-- Value of `nsfw` after one update step: any present value replaces
the old one. -/
def nsfwAfter : Option Bool → Bool → Bool
  | some b, _ => b
  | none, old => old

/-- Value of `system_messages` after one update step: a present config
is wrapped into a fresh `SystemMessages`. -/
def smAfter : Option SystemMessagesConfig → SystemMessages → SystemMessages
  | some cfg, _ => SystemMessages.init cfg
  | none, old => old

/-- Value of `categories` after one update step: a present list is
mapped through the `Category` constructor. -/
def categoriesAfter : Option (List CategoryPayload) → List Category → List Category
  | some cs, _ => cs.map Category.mk
  | none, old => old

/-- Specification of one `SystemMessages` accessor body: absent result
on a falsy stored id with no lookup; otherwise one cache lookup whose
outcome is the channel when it is a text channel and an assertion
failure when it is a non-text channel or no channel at all. -/
abbrev accessorSpec (idOpt : Option String) (st : State) (r : AccessResult × Nat) : Prop :=
  (truthyStr idOpt = false → r = (AccessResult.absent, 0)) ∧
  (∀ cid, idOpt = some cid → cid ≠ "" →
    ((∀ c, st.get_channel cid = some c → c.kind = ChannelKind.text → r = (AccessResult.channel c, 1)) ∧
     (∀ c, st.get_channel cid = some c → c.kind ≠ ChannelKind.text → r = (AccessResult.assertFailure, 1)) ∧
     (st.get_channel cid = none → r = (AccessResult.assertFailure, 1))))

/-- A concrete text channel cached under id C1. -/
def chanC1 : Channel :=
  { id := "C1", kind := ChannelKind.text }

/-- A concrete cache containing only channel C1. -/
def stC1 : State :=
  { channels := [("C1", chanC1)] }

/-- The scenario payload of the specification: server S1 listing channel
ids C1 and C2. -/
def payloadS1 : ServerPayload :=
  { _id := "S1", name := "Test", owner := "U1",
    default_permissions := [0, 0], channels := ["C1", "C2"] }

/-- A payload listing the same channel id twice. -/
def payloadDup : ServerPayload :=
  { _id := "S2", name := "Dup", owner := "U1",
    default_permissions := [0], channels := ["C1", "C1"] }

/-- A payload carrying a role mapping. -/
def payloadRich : ServerPayload :=
  { _id := "S3", name := "Rich", owner := "U1",
    default_permissions := [0, 0], channels := ["C1"],
    roles := some [("R1", { raw := "r1" })] }

/-- A payload with nsfw set to true and a non-empty description. -/
def payloadNsfwTrue : ServerPayload :=
  { _id := "S4", name := "Nsfw", owner := "U1",
    default_permissions := [0], channels := [],
    nsfw := some true, description := some "old words" }

/-- A payload whose description key is present with the empty string. -/
def payloadEmptyDesc : ServerPayload :=
  { _id := "S5", name := "Empty", owner := "U1",
    default_permissions := [0], channels := [],
    description := some "" }

/-- An update payload with several fields present: truthy owner and
name, empty-string description, nsfw false. -/
def updFull : ServerUpdatePayload :=
  { owner := some "U2", name := some "New",
    description := some "", nsfw := some false }

/-- An update payload whose present fields all carry falsy values. -/
def updFalsy : ServerUpdatePayload :=
  { owner := some "", name := some "",
    icon := some { entries := [] }, banner := some { entries := [] },
    default_permissions := some [] }

/-- An update payload carrying only nsfw with the literal value false. -/
def updNsfwFalse : ServerUpdatePayload :=
  { nsfw := some false }

/-- An update payload carrying only an empty-string description. -/
def updEmptyDesc : ServerUpdatePayload :=
  { description := some "" }

/-- A system-message config pointing at an id absent from the cache. -/
def smMiss : SystemMessages :=
  SystemMessages.init { user_joined := some "C9" }

/-- One update step touches only the `owner_id` attribute. -/
theorem applyOwner_eq (o : Option String) (s : Server) :
    applyOwner o s = { s with owner_id := ownerAfter o s.owner_id } := by
  cases o with
  | none => rfl
  | some v =>
    by_cases h : v = "" <;> simp [applyOwner, ownerAfter, h]

/-- One update step touches only the `name` attribute. -/
theorem applyName_eq (o : Option String) (s : Server) :
    applyName o s = { s with name := nameAfter o s.name } := by
  cases o with
  | none => rfl
  | some v =>
    by_cases h : v = "" <;> simp [applyName, nameAfter, h]

/-- One update step touches only the `description` attribute. -/
theorem applyDescription_eq (o : Option String) (s : Server) :
    applyDescription o s = { s with description := descriptionAfter o s.description } := by
  cases o with
  | none => rfl
  | some v => rfl

/-- One update step touches only the `icon` attribute. -/
theorem applyIcon_eq (o : Option FilePayload) (s : Server) :
    applyIcon o s = { s with icon := assetAfter o s.icon } := by
  cases o with
  | none => rfl
  | some f =>
    by_cases h : f.entries = [] <;> simp [applyIcon, assetAfter, h]

/-- One update step touches only the `banner` attribute. -/
theorem applyBanner_eq (o : Option FilePayload) (s : Server) :
    applyBanner o s = { s with banner := assetAfter o s.banner } := by
  cases o with
  | none => rfl
  | some f =>
    by_cases h : f.entries = [] <;> simp [applyBanner, assetAfter, h]

/-- One update step touches only the `default_permissions` attribute. -/
theorem applyDefaultPermissions_eq (o : Option (List Nat)) (s : Server) :
    applyDefaultPermissions o s = { s with default_permissions := permsAfter o s.default_permissions } := by
  cases o with
  | none => rfl
  | some p =>
    by_cases h : p = [] <;> simp [applyDefaultPermissions, permsAfter, h]

/-- One update step touches only the `nsfw` attribute. -/
theorem applyNsfw_eq (o : Option Bool) (s : Server) :
    applyNsfw o s = { s with nsfw := nsfwAfter o s.nsfw } := by
  cases o with
  | none => rfl
  | some b => rfl

/-- One update step touches only the `system_messages` attribute. -/
theorem applySystemMessages_eq (o : Option SystemMessagesConfig) (s : Server) :
    applySystemMessages o s = { s with system_messages := smAfter o s.system_messages } := by
  cases o with
  | none => rfl
  | some cfg => rfl

/-- One update step touches only the `categories` attribute. -/
theorem applyCategories_eq (o : Option (List CategoryPayload)) (s : Server) :
    applyCategories o s = { s with categories := categoriesAfter o s.categories } := by
  cases o with
  | none => rfl
  | some cs => rfl

/-- Full characterisation of `_update`: each attribute after the update
depends only on its own entry of the update payload. -/
theorem Server.update_eq (s : Server) (d : ServerUpdatePayload) :
    s._update d =
      { s with
        owner_id := ownerAfter d.owner s.owner_id
        name := nameAfter d.name s.name
        description := descriptionAfter d.description s.description
        icon := assetAfter d.icon s.icon
        banner := assetAfter d.banner s.banner
        default_permissions := permsAfter d.default_permissions s.default_permissions
        nsfw := nsfwAfter d.nsfw s.nsfw
        system_messages := smAfter d.system_messages s.system_messages
        categories := categoriesAfter d.categories s.categories } := by
  simp only [Server._update, applyOwner_eq, applyName_eq, applyDescription_eq, applyIcon_eq,
    applyBanner_eq, applyDefaultPermissions_eq, applyNsfw_eq, applySystemMessages_eq,
    applyCategories_eq]

/-- The shared accessor body of `SystemMessages` meets the accessor
specification. -/
theorem resolveSystemChannel_spec (o : Option String) (st : State) :
    accessorSpec o st (resolveSystemChannel o st) := by
  refine ⟨fun h => ?_, fun cid hcid hne => ?_⟩
  · simp [resolveSystemChannel, h]
  · subst hcid
    have ht : truthyStr (some cid) = true := by simp [truthyStr, hne]
    refine ⟨fun c hc hk => ?_, fun c hc hk => ?_, fun hc => ?_⟩
    · simp [resolveSystemChannel, ht, hc, hk]
    · simp [resolveSystemChannel, ht, hc, hk]
    · simp [resolveSystemChannel, ht, hc]

/-- Inserting a key absent from a dict appends the pair at the end. -/
theorem dictInsert_of_not_mem {α : Type} (m : List (String × α)) (k : String) (v : α)
    (h : ∀ p ∈ m, p.1 ≠ k) : dictInsert m k v = m ++ [(k, v)] := by
  unfold dictInsert
  rw [if_neg]
  simp only [List.any_eq_true, decide_eq_true_eq, not_exists, not_and]
  intro p hp
  exact h p hp

/-- Every entry of a dict after an insertion is an old entry or the
inserted pair. -/
theorem mem_dictInsert {α : Type} {x : String × α} {m : List (String × α)} {k : String} {v : α}
    (hx : x ∈ dictInsert m k v) : x ∈ m ∨ x = (k, v) := by
  unfold dictInsert at hx
  split at hx
  · obtain ⟨p, hp, hpe⟩ := List.mem_map.mp hx
    by_cases hk : p.1 = k
    · right
      rw [if_pos hk] at hpe
      exact hpe.symm
    · left
      rw [if_neg hk] at hpe
      exact hpe ▸ hp
  · rcases List.mem_append.mp hx with h | h
    · exact Or.inl h
    · exact Or.inr (List.mem_singleton.mp h)

/-- Folding dict insertions over pairs with globally distinct keys
appends them all in order. -/
theorem foldl_dictInsert_of_nodup {α : Type} (l m : List (String × α))
    (h : ((m ++ l).map Prod.fst).Nodup) :
    l.foldl (fun acc kv => dictInsert acc kv.1 kv.2) m = m ++ l := by
  induction l generalizing m with
  | nil => simp
  | cons kv t ih =>
    have hk : ∀ p ∈ m, p.1 ≠ kv.1 := by
      intro p hp
      have hd := (List.nodup_append.mp (by simpa using h)).2.2
      intro hcontra
      exact hd (List.mem_map_of_mem Prod.fst hp) (by simp [hcontra])
    rw [List.foldl_cons, dictInsert_of_not_mem m kv.1 kv.2 hk]
    have hassoc : m ++ [(kv.1, kv.2)] ++ t = m ++ kv :: t := by
      simp
    have h2 : (((m ++ [(kv.1, kv.2)]) ++ t).map Prod.fst).Nodup := by
      rw [hassoc]
      simpa using h
    have := ih (m ++ [(kv.1, kv.2)]) h2
    rw [this, hassoc]

/-- A dict built from pairs with distinct keys is that pair list. -/
theorem pyDict_of_nodup {α : Type} (l : List (String × α))
    (h : (l.map Prod.fst).Nodup) : pyDict l = l := by
  have := foldl_dictInsert_of_nodup l [] (by simpa using h)
  simpa [pyDict] using this

/-- Every entry reached by folding dict insertions is an entry of the
accumulator or one of the inserted pairs. -/
theorem mem_foldl_dictInsert {α : Type} {x : String × α} (l : List (String × α)) :
    ∀ m : List (String × α),
      x ∈ l.foldl (fun acc kv => dictInsert acc kv.1 kv.2) m → x ∈ m ∨ x ∈ l := by
  induction l with
  | nil =>
    intro m hm
    exact Or.inl hm
  | cons kv t ih =>
    intro m hm
    rw [List.foldl_cons] at hm
    rcases ih (dictInsert m kv.1 kv.2) hm with h | h
    · rcases mem_dictInsert h with h2 | h2
      · exact Or.inl h2
      · exact Or.inr (by simp [h2])
    · exact Or.inr (List.mem_cons_of_mem kv h)

/-- Every entry of a built dict is one of the input pairs. -/
theorem mem_pyDict {α : Type} {x : String × α} {l : List (String × α)}
    (hx : x ∈ pyDict l) : x ∈ l := by
  rcases mem_foldl_dictInsert l [] hx with h | h
  · cases h
  · exact h

/-- Claim C1, counterexample: for the payload listing channel id C1
twice against a cache containing C1, the resolution list has two
entries but the constructed `channels` list has one, so the `channels`
list does not equal the resolution list as the claim states. -/
theorem init_channels_resolved_cex :
    ((payloadDup.channels.map stC1.get_channel).filterMap fun c => c) = [chanC1, chanC1] ∧
    (Server.init payloadDup stC1).channels = [chanC1] ∧
    (Server.init payloadDup stC1).channels ≠
      ((payloadDup.channels.map stC1.get_channel).filterMap fun c => c) := by
  decide

/-- Claim C1 (amended): whenever the resolved channels carry pairwise
distinct ids — duplicates are otherwise collapsed by the id-keyed dict —
the constructed `channels` list equals exactly the cache resolutions of
the payload's listed channel ids, unresolved ids silently dropped, in
cache-resolution order. -/
theorem init_channels_resolved (d : ServerPayload) (st : State)
    (h : ((((d.channels.map st.get_channel).filterMap fun c => c).map Channel.id)).Nodup) :
    (Server.init d st).channels = (d.channels.map st.get_channel).filterMap fun c => c := by
  simp only [Server.channels, Server.init]
  rw [pyDict_of_nodup]
  · rw [List.map_map]
    rw [show (Prod.snd ∘ fun c : Channel => (c.id, c)) = id from rfl, List.map_id]
  · rw [List.map_map]
    simpa using h

/-- Claim C1, witness: the scenario payload S1 listing C1 and C2
against a cache containing only C1 yields the one-element channel list
holding C1's object. -/
theorem init_channels_resolved_witness :
    (Server.init payloadS1 stC1).channels = [chanC1] :=
  (init_channels_resolved payloadS1 stC1 (by decide)).trans (by decide)

/-- Claim C2, counterexample: an update payload whose `name` field is
present with the empty string leaves the prior name in place, so the
specified field's post-update value does not equal the payload's
value. -/
theorem update_fields_cex :
    ((Server.init payloadS1 stC1)._update { name := some "" }).name = "Test" ∧
    ((Server.init payloadS1 stC1)._update { name := some "" }).name ≠ "" := by
  decide

/-- Claim C2 (amended): applying `_update` leaves every unspecified
field unchanged (as well as the id and the member, role and channel
mappings, which no update touches); a specified field takes exactly the
payload's value — wrapped by the corresponding entity constructor for
icon, banner, default permissions, system messages and categories —
except that a falsy specified value for owner, name, icon, banner or
default permissions is ignored and an empty-string description is
normalised to an absent value. -/
theorem update_fields (s : Server) (d : ServerUpdatePayload) :
    ((s._update d).id = s.id) ∧
    ((s._update d)._members = s._members) ∧
    ((s._update d)._roles = s._roles) ∧
    ((s._update d)._channels = s._channels) ∧
    (d.owner = none → (s._update d).owner_id = s.owner_id) ∧
    (∀ v, d.owner = some v → v ≠ "" → (s._update d).owner_id = v) ∧
    (d.name = none → (s._update d).name = s.name) ∧
    (∀ v, d.name = some v → v ≠ "" → (s._update d).name = v) ∧
    (d.description = none → (s._update d).description = s.description) ∧
    (∀ v, d.description = some v → v ≠ "" → (s._update d).description = some v) ∧
    (d.icon = none → (s._update d).icon = s.icon) ∧
    (∀ f, d.icon = some f → f.entries ≠ [] → (s._update d).icon = some (Asset.mk f)) ∧
    (d.banner = none → (s._update d).banner = s.banner) ∧
    (∀ f, d.banner = some f → f.entries ≠ [] → (s._update d).banner = some (Asset.mk f)) ∧
    (d.default_permissions = none →
      (s._update d).default_permissions = s.default_permissions) ∧
    (∀ p, d.default_permissions = some p → p ≠ [] →
      (s._update d).default_permissions = ServerPermissions.mk p) ∧
    (d.nsfw = none → (s._update d).nsfw = s.nsfw) ∧
    (∀ b, d.nsfw = some b → (s._update d).nsfw = b) ∧
    (d.system_messages = none → (s._update d).system_messages = s.system_messages) ∧
    (∀ cfg, d.system_messages = some cfg →
      (s._update d).system_messages = SystemMessages.init cfg) ∧
    (d.categories = none → (s._update d).categories = s.categories) ∧
    (∀ cs, d.categories = some cs → (s._update d).categories = cs.map Category.mk) := by
  refine ⟨?_, ?_, ?_, ?_, fun h => ?_, fun v h hv => ?_, fun h => ?_, fun v h hv => ?_,
    fun h => ?_, fun v h hv => ?_, fun h => ?_, fun f h hf => ?_, fun h => ?_,
    fun f h hf => ?_, fun h => ?_, fun p h hp => ?_, fun h => ?_, fun b h => ?_,
    fun h => ?_, fun cfg h => ?_, fun h => ?_, fun cs h => ?_⟩ <;>
  simp [Server.update_eq, ownerAfter, nameAfter, descriptionAfter, assetAfter,
    permsAfter, nsfwAfter, smAfter, categoriesAfter, *]

/-- Claim C2, witness: on the scenario server, an update specifying a
non-empty owner takes effect while omitted fields, here the channel
mapping, are unchanged. -/
theorem update_fields_witness :
    ((Server.init payloadS1 stC1)._update updFull).owner_id = "U2" ∧
    ((Server.init payloadS1 stC1)._update updFull)._channels =
      (Server.init payloadS1 stC1)._channels := by
  obtain ⟨h1, h2, h3, h4, h5, h6, h7⟩ := update_fields (Server.init payloadS1 stC1) updFull
  exact ⟨h6 "U2" rfl (by decide), h4⟩

/-- Claim C3, counterexample: for an explicit payload carrying roles and
channels, the constructed server's member mapping is empty — it is not
populated at construction time. -/
theorem init_members_cex :
    (Server.init payloadRich stC1).members = ([] : List Member) ∧
    (Server.init payloadRich stC1).channels ≠ [] := by
  decide

/-- Claim C3 (amended): at construction the members mapping is left
empty; the roles mapping is built from the payload's role mapping (not
from the cache); and every entry of the channels mapping is a channel
resolved from the shared cache at one of the payload's listed ids. -/
theorem init_mappings (d : ServerPayload) (st : State) :
    (Server.init d st)._members = [] ∧
    (Server.init d st)._roles = (d.roles.getD []).map (fun p => (p.1, Role.mk p.2 p.1)) ∧
    (∀ c ∈ (Server.init d st).channels, ∃ cid ∈ d.channels, st.get_channel cid = some c) := by
  refine ⟨by simp [Server.init], by simp [Server.init], ?_⟩
  intro c hc
  simp only [Server.channels, Server.init] at hc
  obtain ⟨p, hp, hpe⟩ := List.mem_map.mp hc
  obtain ⟨c2, hc2, hc2e⟩ := List.mem_map.mp (mem_pyDict hp)
  have hcc : c2 = c := by
    rw [← hc2e] at hpe
    exact hpe
  subst hcc
  obtain ⟨o, ho, hoe⟩ := List.mem_filterMap.mp hc2
  obtain ⟨cid, hcid, hcide⟩ := List.mem_map.mp ho
  exact ⟨cid, hcid, by rw [hcide]; exact hoe⟩

/-- Claim C3, witness: on the role-carrying payload, members are empty
and C1's object in the channel mapping is resolved from the cache at a
listed id. -/
theorem init_mappings_witness :
    (Server.init payloadRich stC1)._members = [] ∧
    (∃ cid ∈ payloadRich.channels, stC1.get_channel cid = some chanC1) := by
  obtain ⟨h1, h2, h3⟩ := init_mappings payloadRich stC1
  exact ⟨h1, h3 chanC1 (by decide)⟩

/-- Claim C4: when an id is absent from the corresponding internal
mapping, each of `get_role`, `get_member` and `get_channel` signals a
key-not-found error carrying that id, never a default. -/
theorem get_lookups_raise_key_not_found (s : Server) (rid mid cid : String) :
    (lookupStr s._roles rid = none →
      s.get_role rid = Except.error (LookupError.keyNotFound rid)) ∧
    (lookupStr s._members mid = none →
      s.get_member mid = Except.error (LookupError.keyNotFound mid)) ∧
    (lookupStr s._channels cid = none →
      s.get_channel cid = Except.error (LookupError.keyNotFound cid)) := by
  refine ⟨fun h => ?_, fun h => ?_, fun h => ?_⟩ <;>
    simp [Server.get_role, Server.get_member, Server.get_channel, h]

/-- Claim C4, witness: `get_role` at the id "missing" on the scenario
server, which has no roles, is the key-not-found error. -/
theorem get_lookups_raise_key_not_found_witness :
    (Server.init payloadS1 stC1).get_role "missing" =
      Except.error (LookupError.keyNotFound "missing") :=
  (get_lookups_raise_key_not_found (Server.init payloadS1 stC1) "missing" "m" "c").1 (by decide)

/-- Claim C5: an update payload carrying nsfw with the literal value
false sets nsfw to false (presence check, not truthiness), while an
update payload omitting nsfw leaves the prior value unchanged. -/
theorem update_nsfw_presence (s : Server) (d : ServerUpdatePayload) :
    (d.nsfw = some false → (s._update d).nsfw = false) ∧
    (d.nsfw = none → (s._update d).nsfw = s.nsfw) := by
  constructor <;> intro h <;> simp [Server.update_eq, nsfwAfter, h]

/-- Claim C5, witness: a server constructed with nsfw true, updated
with nsfw false present, ends with nsfw false. -/
theorem update_nsfw_presence_witness :
    (Server.init payloadNsfwTrue stC1).nsfw = true ∧
    ((Server.init payloadNsfwTrue stC1)._update updNsfwFalse).nsfw = false := by
  refine ⟨by decide, ?_⟩
  exact (update_nsfw_presence (Server.init payloadNsfwTrue stC1) updNsfwFalse).1 rfl

/-- Claim C6: an update with description present and empty yields an
absent description; present and non-empty yields exactly that string;
omitted leaves the prior value unchanged. -/
theorem update_description_norm (s : Server) (d : ServerUpdatePayload) :
    (d.description = some "" → (s._update d).description = none) ∧
    (∀ v, d.description = some v → v ≠ "" → (s._update d).description = some v) ∧
    (d.description = none → (s._update d).description = s.description) := by
  refine ⟨fun h => ?_, fun v h hv => ?_, fun h => ?_⟩
  · simp [Server.update_eq, descriptionAfter, h]
  · simp [Server.update_eq, descriptionAfter, h, hv]
  · simp [Server.update_eq, descriptionAfter, h]

/-- Claim C6, witness: updating a server whose description is set with
an empty-string description clears it to an absent value. -/
theorem update_description_norm_witness :
    (Server.init payloadNsfwTrue stC1).description = some "old words" ∧
    ((Server.init payloadNsfwTrue stC1)._update updEmptyDesc).description = none := by
  refine ⟨by decide, ?_⟩
  exact (update_description_norm (Server.init payloadNsfwTrue stC1) updEmptyDesc).1 rfl

/-- Claim C7, counterexample: with a stored id absent from the cache,
the accessor ends in an assertion failure although the cache returned
no channel at all, so the failure is not only for a channel of the
wrong variant. -/
theorem system_messages_accessors_cex :
    smMiss.user_joined stC1 = (AccessResult.assertFailure, 1) ∧
    stC1.get_channel "C9" = none := by
  decide

/-- Claim C7 (amended): each of the four accessors performs no lookup
and returns an absent value when the stored id is falsy, and otherwise
performs exactly one fresh cache lookup on the state passed at access
time, returning the resolved channel when it is a text channel and
failing the assertion when the lookup yields a non-text channel or no
channel; in particular a `SystemMessages` built from the empty config
answers absent from all four accessors with no cache lookup. -/
theorem system_messages_accessors (sm : SystemMessages) (st : State) :
    accessorSpec sm.user_joined_id st (sm.user_joined st) ∧
    accessorSpec sm.user_left_id st (sm.user_left st) ∧
    accessorSpec sm.user_kicked_id st (sm.user_kicked st) ∧
    accessorSpec sm.user_banned_id st (sm.user_banned st) ∧
    (∀ st2 : State,
      (SystemMessages.init {}).user_joined st2 = (AccessResult.absent, 0) ∧
      (SystemMessages.init {}).user_left st2 = (AccessResult.absent, 0) ∧
      (SystemMessages.init {}).user_kicked st2 = (AccessResult.absent, 0) ∧
      (SystemMessages.init {}).user_banned st2 = (AccessResult.absent, 0)) :=
  ⟨resolveSystemChannel_spec sm.user_joined_id st,
   resolveSystemChannel_spec sm.user_left_id st,
   resolveSystemChannel_spec sm.user_kicked_id st,
   resolveSystemChannel_spec sm.user_banned_id st,
   fun _ => ⟨rfl, rfl, rfl, rfl⟩⟩

/-- Claim C7, witness: a config naming the cached text channel C1
resolves it with exactly one lookup. -/
theorem system_messages_accessors_witness :
    (SystemMessages.init { user_joined := some "C1" }).user_joined stC1 =
      (AccessResult.channel chanC1, 1) := by
  obtain ⟨h1, h2, h3, h4, h5⟩ :=
    system_messages_accessors (SystemMessages.init { user_joined := some "C1" }) stC1
  exact (h1.2 "C1" rfl (by decide)).1 chanC1 (by decide) rfl

/-- Claim C8: `set_default_permissions` leaves the server unchanged and
performs exactly the one delegated transport call carrying the server id
and the permission values. -/
theorem set_default_permissions_delegates (s : Server) (p : ServerPermissions) :
    (s.set_default_permissions p).1 = s ∧
    (s.set_default_permissions p).2 = [HttpCall.setDefaultPermissions s.id p.value] :=
  ⟨rfl, rfl⟩

/-- Claim C9: an update payload field that is present but falsy — empty
owner or name string, empty icon or banner dict, empty permission
tuple — leaves the corresponding attribute unchanged. -/
theorem update_falsy_ignored (s : Server) (d : ServerUpdatePayload) :
    (d.owner = some "" → (s._update d).owner_id = s.owner_id) ∧
    (d.name = some "" → (s._update d).name = s.name) ∧
    (∀ f, d.icon = some f → f.entries = [] → (s._update d).icon = s.icon) ∧
    (∀ f, d.banner = some f → f.entries = [] → (s._update d).banner = s.banner) ∧
    (d.default_permissions = some [] →
      (s._update d).default_permissions = s.default_permissions) := by
  refine ⟨fun h => ?_, fun h => ?_, fun f h hf => ?_, fun f h hf => ?_, fun h => ?_⟩
  · simp [Server.update_eq, ownerAfter, h]
  · simp [Server.update_eq, nameAfter, h]
  · simp [Server.update_eq, assetAfter, h, hf]
  · simp [Server.update_eq, assetAfter, h, hf]
  · simp [Server.update_eq, permsAfter, h]

/-- Claim C9, witness: the all-falsy update payload leaves name and
default permissions of the scenario server unchanged. -/
theorem update_falsy_ignored_witness :
    ((Server.init payloadS1 stC1)._update updFalsy).name =
      (Server.init payloadS1 stC1).name ∧
    ((Server.init payloadS1 stC1)._update updFalsy).default_permissions =
      (Server.init payloadS1 stC1).default_permissions := by
  obtain ⟨h1, h2, h3, h4, h5⟩ := update_falsy_ignored (Server.init payloadS1 stC1) updFalsy
  exact ⟨h2 rfl, h5 rfl⟩

/-- Claim C10: a construction payload whose description key is present
with the empty string yields a server with an absent description. -/
theorem init_description_empty (d : ServerPayload) (st : State)
    (h : d.description = some "") :
    (Server.init d st).description = none := by
  simp [Server.init, h]

/-- Claim C10, witness: constructing from the empty-description payload
leaves the description absent. -/
theorem init_description_empty_witness :
    (Server.init payloadEmptyDesc stC1).description = none :=
  init_description_empty payloadEmptyDesc stC1 rfl

end Revolt
